import Mathlib

/-!
Verification of the animateVDO stage-orchestration and retry/recovery core.

The definitions below are a shallow embedding of the TypeScript source:
  * the error-handling module (`ErrorCode`, `AIServiceError`, `mapAPIError`,
    `ErrorHandlers`, `retryWithBackoff`, `RecoveryStrategies.queueForRetry`),
  * the `retryAIService` wrapper from the AI-service configuration module,
  * the stage request handlers (ai-research, ai-scriptwriting,
    ai-character-generation, ai-character-design) modelled as pure functions
    from their inputs, injected external capabilities, and injected
    database-operation outcomes to an HTTP-level outcome plus the ordered
    trace of database writes they perform.

JavaScript `number` values appearing in the retry logic are modelled as `Nat`
(`Int` for `maxRetries`, whose sign matters); JS `undefined`/falsy strings are
modelled with `Option String` and explicit empty-string checks; a thrown JS
value is an `Except` error.
-/

/-- Substring test on `List Char`: does `pat` occur contiguously in the list? -/
def hasInfix (pat : List Char) : List Char → Bool
  | [] => pat.isEmpty
  | c :: rest => pat.isPrefixOf (c :: rest) || hasInfix pat rest

/-- JS `s.includes(pat)`. -/
def strIncludes (s pat : String) : Bool :=
  hasInfix pat.toList s.toList

/-- JS `s.toLowerCase()` (ASCII range, which is all the source uses). -/
def strToLower (s : String) : String :=
  String.mk (s.toList.map Char.toLower)

/-- JS `error.message?.includes(marker)`: `undefined` message yields false. -/
def optMessageIncludes (message : Option String) (marker : String) : Bool :=
  match message with
  | none => false
  | some m => strIncludes m marker

/-- Error codes of the error-handling module (`enum ErrorCode`). -/
inductive ErrorCode where
  | API_KEY_MISSING
  | API_RATE_LIMIT
  | API_QUOTA_EXCEEDED
  | API_INVALID_RESPONSE
  | API_SERVICE_DOWN
  | RESEARCH_FAILED
  | SCRIPT_GENERATION_FAILED
  | CHARACTER_DESIGN_FAILED
  | VOICE_SYNTHESIS_FAILED
  | VIDEO_COMPILATION_FAILED
  | INVALID_PROJECT_DATA
  | MISSING_DEPENDENCIES
  | DATA_CORRUPTION
  | STORAGE_UPLOAD_FAILED
  | STORAGE_QUOTA_EXCEEDED
  | UNAUTHORIZED
  | SUBSCRIPTION_REQUIRED
  | USAGE_LIMIT_EXCEEDED
  | UNKNOWN_ERROR
  | NETWORK_ERROR
  | TIMEOUT_ERROR
  deriving DecidableEq, Repr

/-- The raw failure value inspected by the classifier: the fields of the
JS `error: any` object that `mapAPIError` and the service handlers read
(`error.response?.status`, `error.code`, `error.message`). -/
structure RawError where
  responseStatus : Option Nat := none
  code : Option String := none
  message : Option String := none
  deriving DecidableEq, Repr

/-- `technicalDetails` payloads attached by `mapAPIError`: either the
response object (its status) or the whole raw error. -/
inductive TechnicalDetails where
  | response (status : Option Nat)
  | rawError (e : RawError)
  deriving DecidableEq, Repr

/-- `class AIServiceError` (its data fields). -/
structure AIServiceError where
  code : ErrorCode
  message : String
  userMessage : String
  retryable : Bool
  suggestedAction : Option String := none
  technicalDetails : Option TechnicalDetails := none
  deriving DecidableEq, Repr

/-- `mapAPIError(error, service)`: classify a raw failure. -/
def mapAPIError (error : RawError) (service : String) : AIServiceError :=
  if error.responseStatus = some 429 then
    { code := .API_RATE_LIMIT
      message := service ++ " rate limit exceeded"
      userMessage := "Service is currently busy. Please try again in a few moments."
      retryable := true
      suggestedAction := some "Wait 60 seconds before retrying"
      technicalDetails := some (.response error.responseStatus) }
  else if error.responseStatus = some 401 then
    { code := .API_KEY_MISSING
      message := "Invalid or missing API key for " ++ service
      userMessage := "Service configuration error. Please contact support."
      retryable := false
      technicalDetails := some (.response error.responseStatus) }
  else if error.responseStatus = some 503 then
    { code := .API_SERVICE_DOWN
      message := service ++ " service is temporarily unavailable"
      userMessage := "The AI service is temporarily down. Please try again later."
      retryable := true
      suggestedAction := some "Try again in 5 minutes" }
  else if error.code = some "ECONNREFUSED" ∨ error.code = some "ETIMEDOUT" then
    { code := .NETWORK_ERROR
      message := "Network connection error"
      userMessage := "Unable to connect to the service. Please check your internet connection."
      retryable := true }
  else
    { code := .UNKNOWN_ERROR
      message := match error.message with
                 | some m => if m = "" then "Unknown error occurred" else m
                 | none => "Unknown error occurred"
      userMessage := "An unexpected error occurred. Please try again."
      retryable := true
      technicalDetails := some (.rawError error) }

namespace ErrorHandlers

/-- `ErrorHandlers.research`. -/
def research (error : RawError) : AIServiceError :=
  if optMessageIncludes error.message "No search results" then
    { code := .RESEARCH_FAILED
      message := "No research results found"
      userMessage := "Unable to find information on this topic. Try a different or more specific topic."
      retryable := false
      suggestedAction := some "Modify your topic and try again" }
  else mapAPIError error "Research"

/-- `ErrorHandlers.script`. -/
def script (error : RawError) : AIServiceError :=
  if optMessageIncludes error.message "content filter" then
    { code := .SCRIPT_GENERATION_FAILED
      message := "Content filter triggered"
      userMessage := "The topic may contain sensitive content. Please choose a different topic."
      retryable := false
      suggestedAction := some "Choose a family-friendly topic" }
  else mapAPIError error "Script Generation"

/-- `ErrorHandlers.characterDesign`. -/
def characterDesign (error : RawError) : AIServiceError :=
  if optMessageIncludes error.message "safety system" then
    { code := .CHARACTER_DESIGN_FAILED
      message := "Image generation blocked by safety system"
      userMessage := "Unable to generate images for this content. Please modify your script."
      retryable := false
      suggestedAction := some "Review and modify character descriptions" }
  else mapAPIError error "Character Design"

/-- `ErrorHandlers.voiceSynthesis`. -/
def voiceSynthesis (error : RawError) : AIServiceError :=
  if optMessageIncludes error.message "voice_not_found" then
    { code := .VOICE_SYNTHESIS_FAILED
      message := "Selected voice not available"
      userMessage := "The selected voice is not available. Using default voice."
      retryable := true
      suggestedAction := some "System will retry with default voice" }
  else mapAPIError error "Voice Synthesis"

/-- `ErrorHandlers.videoCompilation`. -/
def videoCompilation (error : RawError) : AIServiceError :=
  if optMessageIncludes error.message "ffmpeg" then
    { code := .VIDEO_COMPILATION_FAILED
      message := "Video processing error"
      userMessage := "Unable to compile video. This may be due to corrupted assets."
      retryable := true
      suggestedAction := some "Regenerate assets and try again" }
  else mapAPIError error "Video Compilation"

end ErrorHandlers

/-- The service keys of the `ErrorHandlers` record (used by `retryAIService`). -/
inductive ServiceKey where
  | research | script | characterDesign | voiceSynthesis | videoCompilation
  deriving DecidableEq, Repr

/-- `ErrorHandlers[service]` lookup. -/
def errorHandlerFor : ServiceKey → RawError → AIServiceError
  | .research => ErrorHandlers.research
  | .script => ErrorHandlers.script
  | .characterDesign => ErrorHandlers.characterDesign
  | .voiceSynthesis => ErrorHandlers.voiceSynthesis
  | .videoCompilation => ErrorHandlers.videoCompilation

/-- `interface RetryOptions`. `maxRetries` is kept as `Int` so that
non-positive values (claim C9) are representable. -/
structure RetryOptions where
  maxRetries : Int
  initialDelay : Nat
  maxDelay : Nat
  backoffFactor : Nat
  deriving DecidableEq, Repr

/-- `defaultRetryOptions`. -/
def defaultRetryOptions : RetryOptions :=
  { maxRetries := 3, initialDelay := 1000, maxDelay := 30000, backoffFactor := 2 }

/-- A value thrown by the wrapped operation: either a plain (non-classified)
error object or an `AIServiceError` instance. -/
inductive OpThrow where
  | raw (e : RawError)
  | service (e : AIServiceError)
  deriving DecidableEq, Repr

/-- A value thrown by `retryWithBackoff` itself: either something the
operation threw, or the JS `undefined` that `throw lastError` raises when
the loop body never executed. -/
inductive Thrown where
  | op (t : OpThrow)
  | undef
  deriving DecidableEq, Repr

/-- `error instanceof AIServiceError && !error.retryable`. -/
def OpThrow.isNonRetryableService : OpThrow → Bool
  | .raw _ => false
  | .service e => !e.retryable

/-- Observable behaviour of one `retryWithBackoff` run: how many times the
operation was invoked, the backoff delays slept (in order), the
`(attempt, delay)` pairs passed to `onRetry`, and the returned value or
thrown error. -/
structure RetryTrace (T : Type) where
  invocations : Nat
  sleeps : List Nat
  onRetryCalls : List (Nat × Nat)
  result : Except Thrown T
  deriving Repr

/-- The `for` loop of `retryWithBackoff`: `attempt` is the loop counter,
`remaining` the number of attempts still allowed (`maxRetries - attempt + 1`),
`delay` the current backoff delay. The operation `fn` is indexed by the
attempt number, so a stateful operation is a function of which call this is. -/
def retryLoop {T : Type} (fn : Nat → Except OpThrow T) (backoffFactor maxDelay : Nat) :
    Nat → Nat → Nat → RetryTrace T
  | _, 0, _ =>
      -- loop body never runs; `throw lastError` with `lastError` unassigned
      { invocations := 0, sleeps := [], onRetryCalls := [], result := .error .undef }
  | attempt, 1, _ =>
      -- final allowed attempt: no sleep branch, loop exits, throw lastError
      match fn attempt with
      | .ok v => { invocations := 1, sleeps := [], onRetryCalls := [], result := .ok v }
      | .error e => { invocations := 1, sleeps := [], onRetryCalls := [], result := .error (.op e) }
  | attempt, remaining + 2, delay =>
      match fn attempt with
      | .ok v => { invocations := 1, sleeps := [], onRetryCalls := [], result := .ok v }
      | .error e =>
          if e.isNonRetryableService then
            { invocations := 1, sleeps := [], onRetryCalls := [], result := .error (.op e) }
          else
            let rest := retryLoop fn backoffFactor maxDelay (attempt + 1) (remaining + 1)
              (min (delay * backoffFactor) maxDelay)
            { invocations := rest.invocations + 1
              sleeps := delay :: rest.sleeps
              onRetryCalls := (attempt, delay) :: rest.onRetryCalls
              result := rest.result }

/-- `retryWithBackoff(fn, options, onRetry?)`. -/
def retryWithBackoff {T : Type} (fn : Nat → Except OpThrow T) (options : RetryOptions) :
    RetryTrace T :=
  retryLoop fn options.backoffFactor options.maxDelay 1 options.maxRetries.toNat
    options.initialDelay

/-- `retryAIService(fn, service)` from the AI-service configuration module:
wraps the operation so every thrown raw error is classified by the
service-specific handler before `retryWithBackoff` sees it, and runs with
the fixed options `maxRetries 3, initialDelay 1000, maxDelay 30000,
backoffFactor 2`. -/
def retryAIService {T : Type} (fn : Nat → Except RawError T) (service : ServiceKey) :
    RetryTrace T :=
  retryWithBackoff
    (fun attempt =>
      match fn attempt with
      | .ok v => .ok v
      | .error e => .error (.service (errorHandlerFor service e)))
    { maxRetries := 3, initialDelay := 1000, maxDelay := 30000, backoffFactor := 2 }

/-- Does the trace's raised value carry an `AIServiceError`? -/
def Thrown.isServiceThrow : Thrown → Bool
  | .op (.service _) => true
  | .op (.raw _) => false
  | .undef => false

/-- Whether a finished retry run raised a classified `AIServiceError`. -/
def RetryTrace.raisedServiceError {T : Type} (t : RetryTrace T) : Bool :=
  match t.result with
  | .error e => e.isServiceThrow
  | .ok _ => false

theorem retryLoop_zero {T : Type} (fn : Nat → Except OpThrow T) (bf md a d : Nat) :
    retryLoop fn bf md a 0 d =
      { invocations := 0, sleeps := [], onRetryCalls := [], result := .error .undef } := rfl

theorem retryLoop_last {T : Type} (fn : Nat → Except OpThrow T) (bf md a d : Nat)
    (t : OpThrow) (hf : fn a = .error t) :
    retryLoop fn bf md a 1 d =
      { invocations := 1, sleeps := [], onRetryCalls := [], result := .error (.op t) } := by
  simp only [retryLoop, hf]

theorem retryLoop_nonretryable {T : Type} (fn : Nat → Except OpThrow T) (bf md a r d : Nat)
    (t : OpThrow) (hf : fn a = .error t) (hr : t.isNonRetryableService = true) :
    retryLoop fn bf md a (r + 2) d =
      { invocations := 1, sleeps := [], onRetryCalls := [], result := .error (.op t) } := by
  simp only [retryLoop, hf, hr]
  simp

theorem retryLoop_step {T : Type} (fn : Nat → Except OpThrow T) (bf md a r d : Nat)
    (t : OpThrow) (hf : fn a = .error t) (hr : t.isNonRetryableService = false) :
    retryLoop fn bf md a (r + 2) d =
      { invocations := (retryLoop fn bf md (a + 1) (r + 1) (min (d * bf) md)).invocations + 1
        sleeps := d :: (retryLoop fn bf md (a + 1) (r + 1) (min (d * bf) md)).sleeps
        onRetryCalls := (a, d) :: (retryLoop fn bf md (a + 1) (r + 1) (min (d * bf) md)).onRetryCalls
        result := (retryLoop fn bf md (a + 1) (r + 1) (min (d * bf) md)).result } := by
  simp only [retryLoop, hf, hr]
  simp

theorem retryWithBackoff_default_exhausts {T : Type}
    (fn : Nat → Except OpThrow T) (t : OpThrow)
    (hnr : t.isNonRetryableService = false) (hfn : ∀ n, fn n = .error t) :
    retryWithBackoff fn defaultRetryOptions =
      { invocations := 3
        sleeps := [1000, 2000]
        onRetryCalls := [(1, 1000), (2, 2000)]
        result := .error (.op t) } := by
  show retryLoop fn 2 30000 1 ((3 : Int).toNat) 1000 = _
  rw [show ((3 : Int).toNat) = 1 + 2 from rfl]
  rw [retryLoop_step fn 2 30000 1 1 1000 _ (hfn 1) hnr]
  rw [show (1 + 1 : Nat) = 0 + 2 from rfl]
  rw [retryLoop_step fn 2 30000 (1 + 1) 0 (min (1000 * 2) 30000) _ (hfn (1 + 1)) hnr]
  rw [retryLoop_last fn 2 30000 (1 + 1 + 1) (min (min (1000 * 2) 30000 * 2) 30000) _
    (hfn (1 + 1 + 1))]
  norm_num

/-- C3: for an operation that always fails with a retryable `AIServiceError`,
`retryWithBackoff` with the default options (maxRetries 3, initialDelay 1000,
backoffFactor 2, maxDelay 30000) invokes the operation exactly 3 times,
sleeps 1000 ms then 2000 ms between consecutive attempts — i.e. the i-th
sleep equals `min (1000 * 2 ^ (i - 1)) 30000` — calls `onRetry` once per
retry with that attempt number and delay, and raises the last error. -/
theorem retryWithBackoff_retryable_exhaustion {T : Type}
    (fn : Nat → Except OpThrow T) (e : AIServiceError)
    (hretry : e.retryable = true) (hfn : ∀ n, fn n = .error (.service e)) :
    retryWithBackoff fn defaultRetryOptions =
      { invocations := 3
        sleeps := [1000, 2000]
        onRetryCalls := [(1, 1000), (2, 2000)]
        result := .error (.op (.service e)) } ∧
    (retryWithBackoff fn defaultRetryOptions).sleeps =
      [min (1000 * 2 ^ 0) 30000, min (1000 * 2 ^ 1) 30000] := by
  have hnr : OpThrow.isNonRetryableService (.service e) = false := by
    simp [OpThrow.isNonRetryableService, hretry]
  have hrun := retryWithBackoff_default_exhausts fn (.service e) hnr hfn
  exact ⟨hrun, by rw [hrun]; norm_num⟩

/-- C4: an operation whose first invocation throws a non-retryable
`AIServiceError` is invoked exactly once by `retryWithBackoff`, which raises
that error with no backoff sleep and no `onRetry` call, for every options
value with `maxRetries ≥ 1`. -/
theorem retryWithBackoff_nonretryable_once {T : Type}
    (opts : RetryOptions) (fn : Nat → Except OpThrow T) (e : AIServiceError)
    (hmax : 1 ≤ opts.maxRetries) (hf : fn 1 = .error (.service e))
    (hr : e.retryable = false) :
    retryWithBackoff fn opts =
      { invocations := 1, sleeps := [], onRetryCalls := []
        result := .error (.op (.service e)) } := by
  have hnr : OpThrow.isNonRetryableService (.service e) = true := by
    simp [OpThrow.isNonRetryableService, hr]
  obtain ⟨n, hn⟩ : ∃ n, opts.maxRetries.toNat = n + 1 := ⟨opts.maxRetries.toNat - 1, by omega⟩
  show retryLoop fn opts.backoffFactor opts.maxDelay 1 opts.maxRetries.toNat opts.initialDelay = _
  rw [hn]
  cases n with
  | zero => exact retryLoop_last fn _ _ _ _ _ hf
  | succ m =>
      rw [show (m + 1 + 1 : Nat) = m + 2 from rfl]
      exact retryLoop_nonretryable fn _ _ _ _ _ _ hf hnr

/-- C9: with `maxRetries ≤ 0` the loop body of `retryWithBackoff` never runs:
the operation is never invoked and the final `throw lastError` raises the
never-assigned (undefined) value, which is not an `AIServiceError`. -/
theorem retryWithBackoff_nonpositive_maxRetries {T : Type}
    (opts : RetryOptions) (fn : Nat → Except OpThrow T) (h : opts.maxRetries ≤ 0) :
    retryWithBackoff fn opts =
      { invocations := 0, sleeps := [], onRetryCalls := [], result := .error .undef } ∧
    (retryWithBackoff fn opts).raisedServiceError = false := by
  have h0 : opts.maxRetries.toNat = 0 := by omega
  have hrun : retryWithBackoff fn opts =
      { invocations := 0, sleeps := [], onRetryCalls := [], result := .error .undef } := by
    show retryLoop fn opts.backoffFactor opts.maxDelay 1 opts.maxRetries.toNat
      opts.initialDelay = _
    rw [h0]
    exact retryLoop_zero fn opts.backoffFactor opts.maxDelay 1 opts.initialDelay
  exact ⟨hrun, by rw [hrun]; rfl⟩

/-- The `service` name string each `ErrorHandlers` entry passes to
`mapAPIError` when its marker does not match. -/
def serviceNameOf : ServiceKey → String
  | .research => "Research"
  | .script => "Script Generation"
  | .characterDesign => "Character Design"
  | .voiceSynthesis => "Voice Synthesis"
  | .videoCompilation => "Video Compilation"

theorem errorHandlerFor_no_message (svc : ServiceKey) (e : RawError)
    (hmsg : e.message = none) :
    errorHandlerFor svc e = mapAPIError e (serviceNameOf svc) := by
  cases svc <;>
    simp [errorHandlerFor, serviceNameOf, ErrorHandlers.research, ErrorHandlers.script,
      ErrorHandlers.characterDesign, ErrorHandlers.voiceSynthesis,
      ErrorHandlers.videoCompilation, optMessageIncludes, hmsg]

theorem mapAPIError_401 (e : RawError) (s : String) (h : e.responseStatus = some 401) :
    (mapAPIError e s).code = .API_KEY_MISSING ∧ (mapAPIError e s).retryable = false := by
  unfold mapAPIError
  rw [h]
  norm_num

/-- The raw (unclassified) 401 error object of Scenario C / claim C1. -/
def raw401 : RawError := { responseStatus := some 401 }

/-- An operation every invocation of which throws the raw 401 object. -/
def alwaysThrowRaw401 : Nat → Except OpThrow Unit := fun _ => .error (.raw raw401)

/-- C1 counterexample: an operation that always throws the raw (unclassified)
object `{response: {status: 401}}` is invoked 3 times — not once — by
`retryWithBackoff` with the default options, and the value finally raised is
the raw object, not a classified `AIServiceError`: the retry executor never
consults the error classifier on its own. -/
theorem retryWithBackoff_raw401_counterexample :
    (retryWithBackoff alwaysThrowRaw401 defaultRetryOptions).invocations = 3 ∧
    ¬ (retryWithBackoff alwaysThrowRaw401 defaultRetryOptions).invocations = 1 ∧
    (retryWithBackoff alwaysThrowRaw401 defaultRetryOptions).result =
      .error (.op (.raw raw401)) ∧
    (retryWithBackoff alwaysThrowRaw401 defaultRetryOptions).raisedServiceError = false := by
  refine ⟨rfl, by decide, rfl, rfl⟩

/-- C1 (amended): `retryWithBackoff` does not itself classify failures — an
operation that always throws the raw object `{response: {status: 401}}` is
invoked `maxRetries` (3) times and the raw error is rethrown unclassified.
Classification happens only when the operation is wrapped so that its
failures are already `AIServiceError`s, as `retryAIService` does: there the
underlying operation is invoked exactly once, nothing is slept, and the
classified `API_KEY_MISSING` (retryable = false) error is raised. -/
theorem retryClassification_amended {T : Type}
    (svc : ServiceKey) (fnRaw : Nat → Except OpThrow T) (fn : Nat → Except RawError T)
    (e : RawError) (hraw : ∀ n, fnRaw n = .error (.raw e)) (hfn : ∀ n, fn n = .error e)
    (hstatus : e.responseStatus = some 401) (hmsg : e.message = none) :
    (retryWithBackoff fnRaw defaultRetryOptions).invocations = 3 ∧
    (retryWithBackoff fnRaw defaultRetryOptions).result = .error (.op (.raw e)) ∧
    (errorHandlerFor svc e).code = .API_KEY_MISSING ∧
    (errorHandlerFor svc e).retryable = false ∧
    (retryAIService fn svc).invocations = 1 ∧
    (retryAIService fn svc).sleeps = [] ∧
    (retryAIService fn svc).onRetryCalls = [] ∧
    (retryAIService fn svc).result = .error (.op (.service (errorHandlerFor svc e))) := by
  have hrawRun := retryWithBackoff_default_exhausts fnRaw (.raw e) rfl hraw
  have hclass : errorHandlerFor svc e = mapAPIError e (serviceNameOf svc) :=
    errorHandlerFor_no_message svc e hmsg
  have hcode := mapAPIError_401 e (serviceNameOf svc) hstatus
  have hretry : (errorHandlerFor svc e).retryable = false := by rw [hclass]; exact hcode.2
  have hwrapRun : retryAIService fn svc =
      { invocations := 1, sleeps := [], onRetryCalls := []
        result := .error (.op (.service (errorHandlerFor svc e))) } := by
    have hdef : retryAIService fn svc =
        retryLoop (fun attempt =>
          match fn attempt with
          | .ok v => .ok v
          | .error err => .error (.service (errorHandlerFor svc err)))
          2 30000 1 ((3 : Int).toNat) 1000 := rfl
    rw [hdef, show ((3 : Int).toNat) = 1 + 2 from rfl]
    refine retryLoop_nonretryable _ _ _ _ _ _ _ ?_ ?_
    · simp [hfn 1]
    · simp [OpThrow.isNonRetryableService, hretry]
  refine ⟨by rw [hrawRun], by rw [hrawRun], by rw [hclass]; exact hcode.1, hretry,
    by rw [hwrapRun], by rw [hwrapRun], by rw [hwrapRun], by rw [hwrapRun]⟩

/-- C7: the classifier's fixed mapping. HTTP status 429 maps to
`API_RATE_LIMIT` (retryable), 401 to `API_KEY_MISSING` (not retryable),
503 to `API_SERVICE_DOWN` (retryable); otherwise connection-level failure
codes ECONNREFUSED/ETIMEDOUT map to `NETWORK_ERROR` (retryable) and
everything else to `UNKNOWN_ERROR` (retryable). The per-service handlers
classify "content filter" and "safety system" messages as non-retryable
stage-specific failures, while "voice_not_found" and "ffmpeg" messages map
to retryable stage-specific failures. -/
theorem classifier_fixed_mapping (e : RawError) (s : String) :
    (e.responseStatus = some 429 →
      (mapAPIError e s).code = .API_RATE_LIMIT ∧ (mapAPIError e s).retryable = true) ∧
    (e.responseStatus = some 401 →
      (mapAPIError e s).code = .API_KEY_MISSING ∧ (mapAPIError e s).retryable = false) ∧
    (e.responseStatus = some 503 →
      (mapAPIError e s).code = .API_SERVICE_DOWN ∧ (mapAPIError e s).retryable = true) ∧
    (e.responseStatus ≠ some 429 → e.responseStatus ≠ some 401 → e.responseStatus ≠ some 503 →
      (e.code = some "ECONNREFUSED" ∨ e.code = some "ETIMEDOUT") →
      (mapAPIError e s).code = .NETWORK_ERROR ∧ (mapAPIError e s).retryable = true) ∧
    (e.responseStatus ≠ some 429 → e.responseStatus ≠ some 401 → e.responseStatus ≠ some 503 →
      e.code ≠ some "ECONNREFUSED" → e.code ≠ some "ETIMEDOUT" →
      (mapAPIError e s).code = .UNKNOWN_ERROR ∧ (mapAPIError e s).retryable = true) ∧
    (optMessageIncludes e.message "content filter" = true →
      (ErrorHandlers.script e).code = .SCRIPT_GENERATION_FAILED ∧
      (ErrorHandlers.script e).retryable = false) ∧
    (optMessageIncludes e.message "safety system" = true →
      (ErrorHandlers.characterDesign e).code = .CHARACTER_DESIGN_FAILED ∧
      (ErrorHandlers.characterDesign e).retryable = false) ∧
    (optMessageIncludes e.message "voice_not_found" = true →
      (ErrorHandlers.voiceSynthesis e).code = .VOICE_SYNTHESIS_FAILED ∧
      (ErrorHandlers.voiceSynthesis e).retryable = true) ∧
    (optMessageIncludes e.message "ffmpeg" = true →
      (ErrorHandlers.videoCompilation e).code = .VIDEO_COMPILATION_FAILED ∧
      (ErrorHandlers.videoCompilation e).retryable = true) := by
  refine ⟨?_, ?_, ?_, ?_, ?_, ?_, ?_, ?_, ?_⟩
  · intro h
    unfold mapAPIError
    rw [h]
    norm_num
  · intro h
    unfold mapAPIError
    rw [h]
    norm_num
  · intro h
    unfold mapAPIError
    rw [h]
    norm_num
  · intro h1 h2 h3 h4
    unfold mapAPIError
    rw [if_neg h1, if_neg h2, if_neg h3, if_pos h4]
    exact ⟨rfl, rfl⟩
  · intro h1 h2 h3 h4 h5
    unfold mapAPIError
    rw [if_neg h1, if_neg h2, if_neg h3, if_neg (by simp [h4, h5])]
    exact ⟨rfl, rfl⟩
  · intro h
    simp [ErrorHandlers.script, h]
  · intro h
    simp [ErrorHandlers.characterDesign, h]
  · intro h
    simp [ErrorHandlers.voiceSynthesis, h]
  · intro h
    simp [ErrorHandlers.videoCompilation, h]

/-- A retryable service error (as classified for a 503) used in witnesses. -/
def sampleRetryableError : AIServiceError :=
  { code := .API_SERVICE_DOWN
    message := "Research service is temporarily unavailable"
    userMessage := "The AI service is temporarily down. Please try again later."
    retryable := true
    suggestedAction := some "Try again in 5 minutes" }

/-- A non-retryable service error (as classified for a 401) used in witnesses. -/
def sampleNonRetryableError : AIServiceError :=
  { code := .API_KEY_MISSING
    message := "Invalid or missing API key for Research"
    userMessage := "Service configuration error. Please contact support."
    retryable := false }

/-- Operation that always throws `sampleRetryableError`. -/
def alwaysFailRetryable : Nat → Except OpThrow Unit :=
  fun _ => .error (.service sampleRetryableError)

/-- Operation that always throws `sampleNonRetryableError`. -/
def alwaysFailNonRetryable : Nat → Except OpThrow Unit :=
  fun _ => .error (.service sampleNonRetryableError)

/-- Operation that always succeeds. -/
def alwaysSucceed : Nat → Except OpThrow Unit := fun _ => .ok ()

/-- Operation (for `retryAIService`) that always throws the raw 401 object. -/
def alwaysThrowRaw401Unwrapped : Nat → Except RawError Unit := fun _ => .error raw401

theorem retryWithBackoff_retryable_exhaustion_witness :
    sampleRetryableError.retryable = true ∧
    retryWithBackoff alwaysFailRetryable defaultRetryOptions =
      { invocations := 3, sleeps := [1000, 2000], onRetryCalls := [(1, 1000), (2, 2000)]
        result := .error (.op (.service sampleRetryableError)) } :=
  ⟨rfl, (retryWithBackoff_retryable_exhaustion alwaysFailRetryable sampleRetryableError rfl
    (fun _ => rfl)).1⟩

theorem retryWithBackoff_nonretryable_once_witness :
    (1 ≤ defaultRetryOptions.maxRetries ∧
      alwaysFailNonRetryable 1 = .error (.service sampleNonRetryableError) ∧
      sampleNonRetryableError.retryable = false) ∧
    retryWithBackoff alwaysFailNonRetryable defaultRetryOptions =
      { invocations := 1, sleeps := [], onRetryCalls := []
        result := .error (.op (.service sampleNonRetryableError)) } :=
  ⟨⟨by decide, rfl, rfl⟩,
    retryWithBackoff_nonretryable_once defaultRetryOptions alwaysFailNonRetryable
      sampleNonRetryableError (by decide) rfl rfl⟩

/-- Options with `maxRetries = 0` for the C9 witness. -/
def zeroRetryOptions : RetryOptions :=
  { maxRetries := 0, initialDelay := 1000, maxDelay := 30000, backoffFactor := 2 }

theorem retryWithBackoff_nonpositive_maxRetries_witness :
    zeroRetryOptions.maxRetries ≤ 0 ∧
    (retryWithBackoff alwaysSucceed zeroRetryOptions =
      { invocations := 0, sleeps := [], onRetryCalls := [], result := .error .undef } ∧
     (retryWithBackoff alwaysSucceed zeroRetryOptions).raisedServiceError = false) :=
  ⟨by decide, retryWithBackoff_nonpositive_maxRetries zeroRetryOptions alwaysSucceed (by decide)⟩

theorem retryClassification_amended_witness :
    ((retryWithBackoff alwaysThrowRaw401 defaultRetryOptions).invocations = 3 ∧
     (retryWithBackoff alwaysThrowRaw401 defaultRetryOptions).result =
       .error (.op (.raw raw401))) ∧
    ((errorHandlerFor .research raw401).code = .API_KEY_MISSING ∧
     (errorHandlerFor .research raw401).retryable = false ∧
     (retryAIService alwaysThrowRaw401Unwrapped .research).invocations = 1 ∧
     (retryAIService alwaysThrowRaw401Unwrapped .research).result =
       .error (.op (.service (errorHandlerFor .research raw401)))) := by
  have h := retryClassification_amended ServiceKey.research alwaysThrowRaw401
    alwaysThrowRaw401Unwrapped raw401 (fun _ => rfl) (fun _ => rfl) rfl rfl
  exact ⟨⟨h.1, h.2.1⟩, h.2.2.1, h.2.2.2.1, h.2.2.2.2.1, h.2.2.2.2.2.2.2⟩

/-- Concrete raw errors, one per branch of the classifier mapping. -/
def err429 : RawError := { responseStatus := some 429 }

def err503 : RawError := { responseStatus := some 503 }

def errConnRefused : RawError := { code := some "ECONNREFUSED" }

def errMisc : RawError := { message := some "boom" }

def errContentFilter : RawError := { message := some "request hit the content filter" }

def errSafetySystem : RawError := { message := some "blocked by the safety system" }

def errVoiceNotFound : RawError := { message := some "voice_not_found: id 77" }

def errFfmpeg : RawError := { message := some "ffmpeg exited with code 1" }

theorem classifier_fixed_mapping_witness :
    ((mapAPIError err429 "Research").code = .API_RATE_LIMIT ∧
      (mapAPIError err429 "Research").retryable = true) ∧
    ((mapAPIError raw401 "Research").code = .API_KEY_MISSING ∧
      (mapAPIError raw401 "Research").retryable = false) ∧
    ((mapAPIError err503 "Research").code = .API_SERVICE_DOWN ∧
      (mapAPIError err503 "Research").retryable = true) ∧
    ((mapAPIError errConnRefused "Research").code = .NETWORK_ERROR ∧
      (mapAPIError errConnRefused "Research").retryable = true) ∧
    ((mapAPIError errMisc "Research").code = .UNKNOWN_ERROR ∧
      (mapAPIError errMisc "Research").retryable = true) ∧
    ((ErrorHandlers.script errContentFilter).code = .SCRIPT_GENERATION_FAILED ∧
      (ErrorHandlers.script errContentFilter).retryable = false) ∧
    ((ErrorHandlers.characterDesign errSafetySystem).code = .CHARACTER_DESIGN_FAILED ∧
      (ErrorHandlers.characterDesign errSafetySystem).retryable = false) ∧
    ((ErrorHandlers.voiceSynthesis errVoiceNotFound).code = .VOICE_SYNTHESIS_FAILED ∧
      (ErrorHandlers.voiceSynthesis errVoiceNotFound).retryable = true) ∧
    ((ErrorHandlers.videoCompilation errFfmpeg).code = .VIDEO_COMPILATION_FAILED ∧
      (ErrorHandlers.videoCompilation errFfmpeg).retryable = true) :=
  ⟨(classifier_fixed_mapping err429 "Research").1 rfl,
   (classifier_fixed_mapping raw401 "Research").2.1 rfl,
   (classifier_fixed_mapping err503 "Research").2.2.1 rfl,
   (classifier_fixed_mapping errConnRefused "Research").2.2.2.1 (by decide) (by decide)
     (by decide) (Or.inl rfl),
   (classifier_fixed_mapping errMisc "Research").2.2.2.2.1 (by decide) (by decide)
     (by decide) (by decide) (by decide),
   (classifier_fixed_mapping errContentFilter "Research").2.2.2.2.2.1 (by decide),
   (classifier_fixed_mapping errSafetySystem "Research").2.2.2.2.2.2.1 (by decide),
   (classifier_fixed_mapping errVoiceNotFound "Research").2.2.2.2.2.2.2.1 (by decide),
   (classifier_fixed_mapping errFfmpeg "Research").2.2.2.2.2.2.2.2 (by decide)⟩

/-! ## Stage handlers and persisted state -/

/-- The five pipeline stages. -/
inductive StageName where
  | research | script | characters | audio | video
  deriving DecidableEq, Repr

/-- Modelled from the spec (section on the fixed stage order): the successor
of each stage in [research, script, characters, audio, video], as a project
`status` string. Used to compare the handlers' pointer updates against the
spec's expectation. -/
def specNextStage : StageName → Option String
  | .research => some "script"
  | .script => some "characters"
  | .characters => some "audio"
  | .audio => some "video"
  | .video => none

/-- JS truthiness test for an optional string field (`!project_id`):
`undefined` and the empty string are falsy. -/
def jsFalsyStr : Option String → Bool
  | none => true
  | some s => s = ""

/-- JS `error.message || "An unexpected error occurred."`. -/
def jsMessageOr (msg : String) : String :=
  if msg = "" then "An unexpected error occurred." else msg

/-- JS `s.substring(0, n)` (code-unit counting coincides with character
counting on the ASCII strings the source produces). -/
def strTake (s : String) (n : Nat) : String :=
  String.mk (s.toList.take n)

/-- `research_data` as produced by the ai-research function (the optional
`raw_research: any` payload is never read back and is not modelled). -/
structure ResearchData where
  summary : String
  key_points : List String
  sources : List String
  timestamp : String
  deriving DecidableEq, Repr

/-- One dialogue line of a script scene. -/
structure DialogueLine where
  character : String
  line : String
  deriving DecidableEq, Repr

/-- `interface ScriptScene`. -/
structure ScriptScene where
  scene_number : Nat
  setting : String
  action : String
  dialogue : List DialogueLine
  deriving DecidableEq, Repr

/-- `interface Script`. -/
structure Script where
  title : String
  logline : String
  scenes : List ScriptScene
  deriving DecidableEq, Repr

/-- `prompt_used` record of a generated character. -/
structure PromptUsed where
  description : String
  style_prompt : String
  deriving DecidableEq, Repr

/-- `interface CharacterDetail`. -/
structure CharacterDetail where
  name : String
  description : String
  image_url : String
  prompt_used : PromptUsed
  deriving DecidableEq, Repr

/-- `interface CharacterPromptDetail`. -/
structure CharacterPromptDetail where
  name : String
  description_override : Option String := none
  style_prompt_override : Option String := none
  deriving DecidableEq, Repr

/-- The row `RecoveryStrategies.queueForRetry` inserts into `retry_queue`
(`now` is `Date.now()` in milliseconds). The insert carries no `status`
field. -/
structure RetryQueueInsert where
  project_id : String
  stage : String
  retry_count : Nat
  next_retry_at : Nat
  created_at : Nat
  deriving DecidableEq, Repr

/-- A stored `retry_queue` row (the DDL adds a `status` column with
`DEFAULT 'pending'`). -/
structure RetryQueueRow where
  project_id : String
  stage : String
  retry_count : Nat
  next_retry_at : Nat
  created_at : Nat
  status : String
  deriving DecidableEq, Repr

/-- `RecoveryStrategies.queueForRetry(projectId, stage, supabase)`:
the inserted record, with `next_retry_at` five minutes in the future. -/
def queueForRetry (projectId stage : String) (now : Nat) : RetryQueueInsert :=
  { project_id := projectId, stage := stage, retry_count := 0
    next_retry_at := now + 5 * 60 * 1000, created_at := now }

/-- Storing an insert that omits `status`: the `retry_queue` DDL declares
`status TEXT DEFAULT 'pending'`, so the stored row's status is "pending". -/
def applyRetryQueueInsert (i : RetryQueueInsert) : RetryQueueRow :=
  { project_id := i.project_id, stage := i.stage, retry_count := i.retry_count
    next_retry_at := i.next_retry_at, created_at := i.created_at, status := "pending" }

/-- A database write performed by a stage handler (in program order). -/
inductive DbWrite where
  | projectResearchData (project_id : String) (d : ResearchData)
  | projectScriptData (project_id : String) (s : Script)
  | projectCharacterData (project_id : String) (cs : List CharacterDetail)
  | projectStatus (project_id : String) (status : String)
  | progressFlag (project_id : String) (stage : StageName)
  | storyStageInsert (project_id : String) (stage_name : String) (status : String)
  | retryQueueInsert (row : RetryQueueInsert)
  deriving DecidableEq, Repr

/-- Is this write an insert into `retry_queue`? -/
def DbWrite.isRetryQueueInsert : DbWrite → Bool
  | .retryQueueInsert _ => true
  | _ => false

/-- HTTP-level outcome of one handler invocation: a 200 response carrying
the stage's structured output, or an error status plus JSON error message. -/
inductive HandlerOutcome (α : Type) where
  | ok (body : α)
  | err (status : Nat) (message : String)
  deriving DecidableEq, Repr

/-- The `projects` row fields the handlers read and write. -/
structure ProjectRow where
  id : String
  topic : String
  status : String
  research_data : Option ResearchData := none
  script_data : Option Script := none
  character_data : Option (List CharacterDetail) := none
  deriving DecidableEq, Repr

/-- The `story_progress` row: one boolean per stage. -/
structure StoryProgressRow where
  project_id : String
  research : Bool := false
  script : Bool := false
  characters : Bool := false
  audio : Bool := false
  video : Bool := false
  deriving DecidableEq, Repr

/-- Set the named flag to true (`.update({ <stage>: true })`). -/
def setFlag (p : StoryProgressRow) : StageName → StoryProgressRow
  | .research => { p with research := true }
  | .script => { p with script := true }
  | .characters => { p with characters := true }
  | .audio => { p with audio := true }
  | .video => { p with video := true }

/-- The persisted state a stage invocation touches (a single project). -/
structure PipelineState where
  project : ProjectRow
  progress : StoryProgressRow
  storyStages : List (String × String × String) := []
  retryQueue : List RetryQueueRow := []
  deriving DecidableEq, Repr

/-- Apply one database write to the state (updates are filtered by the
project id, as the source's `.eq('id', project_id)` clauses are). -/
def applyWrite (s : PipelineState) : DbWrite → PipelineState
  | .projectResearchData pid d =>
      if s.project.id = pid then
        { s with project := { s.project with research_data := some d } } else s
  | .projectScriptData pid sc =>
      if s.project.id = pid then
        { s with project := { s.project with script_data := some sc } } else s
  | .projectCharacterData pid cs =>
      if s.project.id = pid then
        { s with project := { s.project with character_data := some cs } } else s
  | .projectStatus pid st =>
      if s.project.id = pid then
        { s with project := { s.project with status := st } } else s
  | .progressFlag pid stage =>
      if s.progress.project_id = pid then { s with progress := setFlag s.progress stage } else s
  | .storyStageInsert pid stage st => { s with storyStages := s.storyStages ++ [(pid, stage, st)] }
  | .retryQueueInsert i => { s with retryQueue := s.retryQueue ++ [applyRetryQueueInsert i] }

/-- Apply a trace of writes in order. -/
def applyWrites (s : PipelineState) (ws : List DbWrite) : PipelineState :=
  ws.foldl applyWrite s

/-! ### ai-research handler -/

/-- The mock research call inside the ai-research handler (`mockApiCall`),
used for the `test_success` / `test_error` topics; `timestamp` stands for
`new Date().toISOString()`. -/
def mockResearchApiCall (topic timestamp : String) : Except String ResearchData :=
  if topic = "test_success" then
    .ok { summary := "This is a mock summary for the topic: " ++ topic ++ "."
          key_points := ["Point 1", "Point 2", "Point 3"]
          sources := ["mock_source1.com", "mock_source2.com"]
          timestamp := timestamp }
  else if topic = "test_error" then
    .error ("Simulated error from research service for topic: " ++ topic)
  else
    .ok { summary := "No specific mock data for topic: " ++ topic ++ ". Generic response."
          key_points := []
          sources := []
          timestamp := timestamp }

/-- `handleRequest` of the ai-research function. The research production
(`researchService.research(topic)` or the mock, selected by environment)
is the injected `research` capability; `projectUpdateError` /
`progressUpdateError` inject the outcomes of the two database updates
(`none` = success, `some m` = the mock DB error message `m`). The result is
the HTTP outcome paired with the successful database writes, in order. -/
def handleResearchRequest
    (topic project_id : Option String)
    (research : String → Except String ResearchData)
    (projectUpdateError progressUpdateError : Option String) :
    HandlerOutcome ResearchData × List DbWrite :=
  if jsFalsyStr project_id then (.err 400 "project_id is required.", [])
  else if jsFalsyStr topic then (.err 400 "topic is required.", [])
  else
    match research (topic.getD "") with
    | .error msg => (.err 500 (jsMessageOr msg), [])
    | .ok rd =>
      match projectUpdateError with
      | some m => (.err 500 ("Failed to update project research data: " ++ m), [])
      | none =>
        match progressUpdateError with
        | some m => (.err 500 ("Failed to update story progress: " ++ m),
            [.projectResearchData (project_id.getD "") rd])
        | none => (.ok rd,
            [.projectResearchData (project_id.getD "") rd,
             .progressFlag (project_id.getD "") .research])

/-! ### ai-scriptwriting handler -/

/-- The catch clause of the ai-scriptwriting / ai-character-generation
handlers: messages containing "not found" yield HTTP 404, otherwise 500. -/
def notFoundCatchStatus (msg : String) : Nat :=
  if strIncludes msg "not found" then 404 else 500

/-- The fallback script `mockLlmScriptCall` returns for missing or empty
research input. -/
def genericPlaceholderScript : Script :=
  { title := "Generic Placeholder Script"
    logline := "A story about something interesting, generated with minimal input."
    scenes := [{ scene_number := 1
                 setting := "A generic room."
                 action := "Something happens."
                 dialogue := [{ character := "Person A", line := "Hello." },
                              { character := "Person B", line := "Hi." }] }] }

/-- The script `mockLlmScriptCall` returns for summaries mentioning
"space exploration". -/
def cosmicOdysseyScript : Script :=
  { title := "Cosmic Odyssey"
    logline := "Brave astronauts explore the final frontier."
    scenes := [
      { scene_number := 1
        setting := "INT. SPACESHIP BRIDGE - NIGHT"
        action := "ALARMS blare. SPARKS fly from a console. CAPTAIN EVA (40s, resolute) barks orders."
        dialogue := [{ character := "EVA", line := "Report! What\x27s our status?" },
                     { character := "PILOT (O.S)", line := "Main drive offline, Captain! We\x27re drifting!" }] },
      { scene_number := 2
        setting := "EXT. ALIEN PLANET - DAY"
        action := "EVA and her LANDING PARTY step onto a vibrant, purple landscape. Strange flora glows faintly."
        dialogue := [{ character := "EVA", line := "Stay alert. We don\x27t know what to expect." }] }] }

/-- The default script `mockLlmScriptCall` derives from unrecognised
research summaries. -/
def defaultScriptFor (rd : ResearchData) : Script :=
  { title := "Script based on: " ++ strTake rd.summary 30 ++ "..."
    logline := "A compelling story derived from the research: " ++ strTake rd.summary 50 ++ "..."
    scenes := [{ scene_number := 1
                 setting := "A place relevant to the research."
                 action := "Key actions from research_data.key_points could be integrated here."
                 dialogue := [{ character := "Character 1", line := "This is interesting." }] }] }

/-- `mockLlmScriptCall(researchData)` of the ai-scriptwriting function. -/
def mockLlmScriptCall (researchData : Option ResearchData) : Except String Script :=
  match researchData with
  | none => .ok genericPlaceholderScript
  | some rd =>
    if rd.summary = "" then .ok genericPlaceholderScript
    else if strIncludes (strToLower rd.summary) "test_error_script" then
      .error "Simulated LLM error during script generation."
    else if strIncludes (strToLower rd.summary) "space exploration" then .ok cosmicOdysseyScript
    else .ok (defaultScriptFor rd)

/-- Resolution of the research input from the database when the payload
carries none: a fetch error becomes a thrown "Failed to fetch research
data..." message routed through the catch clause, a missing value becomes
the direct 404 response, a present value is used. -/
def scriptFetchResolve (pid : String)
    (dbResearchFetch : Except String (Option ResearchData)) :
    Except (Nat × String) ResearchData :=
  match dbResearchFetch with
  | .error m =>
      .error (notFoundCatchStatus ("Failed to fetch research data for project " ++ pid ++
          ": " ++ m),
        "Failed to fetch research data for project " ++ pid ++ ": " ++ m)
  | .ok none =>
      .error (404, "Research data not found for project " ++ pid ++
        ". Cannot generate script.")
  | .ok (some rd) => .ok rd

/-- `finalResearchData` resolution: the payload's research data when it has
a truthy summary, otherwise the database fetch. -/
def scriptResolveResearch (pid : String) (research_data : Option ResearchData)
    (dbResearchFetch : Except String (Option ResearchData)) :
    Except (Nat × String) ResearchData :=
  match research_data with
  | some rd =>
      if rd.summary = "" then scriptFetchResolve pid dbResearchFetch else .ok rd
  | none => scriptFetchResolve pid dbResearchFetch

/-- `handleScriptRequest` of the ai-scriptwriting function. `research_data`
is the optional payload field; `dbResearchFetch` injects the outcome of the
`projects.research_data` fetch performed when the payload has no usable
research data (`.error m` = fetch error, `.ok none` = row/column empty);
`scriptUpdateError` / `progressUpdateError` inject the two update outcomes. -/
def handleScriptRequest
    (project_id : Option String)
    (research_data : Option ResearchData)
    (dbResearchFetch : Except String (Option ResearchData))
    (scriptUpdateError progressUpdateError : Option String) :
    HandlerOutcome Script × List DbWrite :=
  if jsFalsyStr project_id then (.err 400 "project_id is required.", [])
  else
    match scriptResolveResearch (project_id.getD "") research_data dbResearchFetch with
    | .error (st, m) => (.err st m, [])
    | .ok finalRd =>
      match mockLlmScriptCall (some finalRd) with
      | .error m => (.err (notFoundCatchStatus m) m, [])
      | .ok script =>
        match scriptUpdateError with
        | some m =>
            (.err (notFoundCatchStatus ("Failed to store script data: " ++ m))
              ("Failed to store script data: " ++ m), [])
        | none =>
          match progressUpdateError with
          | some m =>
              (.err (notFoundCatchStatus ("Failed to update script progress: " ++ m))
                ("Failed to update script progress: " ++ m),
                [.projectScriptData (project_id.getD "") script])
          | none => (.ok script,
              [.projectScriptData (project_id.getD "") script,
               .progressFlag (project_id.getD "") .script])

/-! ### ai-character-generation handler -/

/-- Characters `encodeURIComponent` leaves unescaped. -/
def uriUnreserved (c : Char) : Bool :=
  c.isAlphanum || c = Char.ofNat 45 || c = Char.ofNat 95 || c = Char.ofNat 46 ||
    c = Char.ofNat 33 || c = Char.ofNat 126 || c = Char.ofNat 42 || c = Char.ofNat 39 ||
    c = Char.ofNat 40 || c = Char.ofNat 41

/-- Upper-case hexadecimal digit. -/
def hexDigit (n : Nat) : Char :=
  if n < 10 then Char.ofNat (48 + n) else Char.ofNat (55 + n)

/-- Percent-encoding of one byte. -/
def percentEncodeByte (b : Nat) : List Char :=
  [Char.ofNat 37, hexDigit (b / 16), hexDigit (b % 16)]

/-- UTF-8 bytes of one character. -/
def utf8Bytes (c : Char) : List Nat :=
  let n := c.toNat
  if n < 128 then [n]
  else if n < 2048 then [192 + n / 64, 128 + n % 64]
  else if n < 65536 then [224 + n / 4096, 128 + n / 64 % 64, 128 + n % 64]
  else [240 + n / 262144, 128 + n / 4096 % 64, 128 + n / 64 % 64, 128 + n % 64]

/-- JS `encodeURIComponent`. -/
def encodeURIComponent (s : String) : String :=
  String.mk ((s.toList.map (fun c =>
    if uriUnreserved c then [c] else ((utf8Bytes c).map percentEncodeByte).flatten)).flatten)

/-- `.replace(/\s+/g, '_')`: each maximal whitespace run becomes one
underscore (`prevWs` records whether the previous character was part of a
run already replaced). -/
def collapseWsAux : List Char → Bool → List Char
  | [], _ => []
  | c :: rest, prevWs =>
    if c.isWhitespace then
      if prevWs then collapseWsAux rest true
      else Char.ofNat 95 :: collapseWsAux rest true
    else c :: collapseWsAux rest false

/-- `characterName.replace(/\s+/g, '_').replace(/[^a-zA-Z0-9_]/g, '')`. -/
def sanitizeCharacterName (name : String) : String :=
  String.mk ((collapseWsAux name.toList false).filter
    (fun c => c.isAlphanum || c = Char.ofNat 95))

/-- `mockImageGenerationApiCall` of the ai-character-generation function:
throws on the two error-marker descriptions, otherwise yields the simulated
public storage URL (`now` stands for `Date.now()`; `supabaseUrl` for the
`SUPABASE_URL` environment variable). -/
def mockImageGenerationApiCall (characterName description _stylePrompt project_id : String)
    (now : Nat) (supabaseUrl : Option String) : Except String String :=
  if strIncludes (strToLower description) "test_error_image_gen_failure" then
    .error ("Simulated image generation API error for " ++ characterName ++ ".")
  else if strIncludes (strToLower description) "test_error_storage_upload" then
    .error ("Mock Storage upload failed for " ++ characterName)
  else
    .ok ((supabaseUrl.getD "http://localhost:54321") ++
      "/storage/v1/object/public/character-images/public/" ++ project_id ++ "/" ++
      sanitizeCharacterName characterName ++ "-" ++ toString now ++ ".txt")

/-- The default description used when no custom prompt overrides it. -/
def defaultCharacterDescription (name : String) : String :=
  "A key character in the story named " ++ name ++ "."

/-- The default style prompt. -/
def defaultStylePrompt : String := "cinematic, detailed, fantasy art"

/-- `custom_prompts_per_character?.find(p => p.name.toLowerCase() ===
name.toLowerCase())`. -/
def findCustomPrompt (customPrompts : Option (List CharacterPromptDetail)) (name : String) :
    Option CharacterPromptDetail :=
  match customPrompts with
  | none => none
  | some ps => ps.find? (fun p => strToLower p.name = strToLower name)

/-- JS `override || default` (an empty-string override also falls back). -/
def jsOrElse (v : Option String) (d : String) : String :=
  match v with
  | none => d
  | some s => if s = "" then d else s

/-- The placeholder URL pushed for a character whose generation call threw
(`https://placehold.co/...` with the error marker, the encoded character
name, and the first 30 characters of the thrown message). -/
def errorPlaceholderUrl (name msg : String) : String :=
  "https://placehold.co/512x512.png?text=ERROR-" ++ encodeURIComponent name ++
    "&reason=" ++ encodeURIComponent (strTake msg 30)

/-- One iteration of the generation loop: resolve the prompts for `name`,
invoke the (injected) image-generation call, and either keep its URL or
substitute the error placeholder. -/
def characterEntry (imageCall : String → String → String → Except String String)
    (customPrompts : Option (List CharacterPromptDetail)) (name : String) : CharacterDetail :=
  let cp := findCustomPrompt customPrompts name
  let description := jsOrElse (cp.bind (fun p => p.description_override))
    (defaultCharacterDescription name)
  let stylePrompt := jsOrElse (cp.bind (fun p => p.style_prompt_override)) defaultStylePrompt
  match imageCall name description stylePrompt with
  | .ok url =>
      { name := name, description := description, image_url := url
        prompt_used := { description := description, style_prompt := stylePrompt } }
  | .error msg =>
      { name := name, description := description
        image_url := errorPlaceholderUrl name msg
        prompt_used := { description := description, style_prompt := stylePrompt } }

/-- The `for (const name of characterNamesFromScript)` loop: one entry per
name, in input order. -/
def generateCharacters (imageCall : String → String → String → Except String String)
    (customPrompts : Option (List CharacterPromptDetail)) (names : List String) :
    List CharacterDetail :=
  names.map (characterEntry imageCall customPrompts)

/-- Character-name extraction from the script: dialogue speakers in
insertion order, de-duplicated (`new Set`), dropping empty names and
"narrator" (case-insensitively). -/
def extractCharacterNames (script : Option Script) : List String :=
  match script with
  | none => []
  | some s =>
    let names := s.scenes.foldl (fun acc scene =>
      scene.dialogue.foldl (fun acc d =>
        if acc.contains d.character then acc else acc ++ [d.character]) acc) []
    names.filter (fun n => n ≠ "" && strToLower n ≠ "narrator")

/-- The names actually generated: the extracted list, or the default
`["Hero", "Villain", "Sidekick"]` when it is empty. -/
def resolveCharacterNames (script : Option Script) : List String :=
  let ns := extractCharacterNames script
  if ns.isEmpty then ["Hero", "Villain", "Sidekick"] else ns

/-- Script resolution for the character-generation handler: the payload's
script data when present, otherwise the database fetch outcome. -/
def characterScriptFetch (script_data : Option Script)
    (dbScriptFetch : Except String (Option Script)) : Except String (Option Script) :=
  match script_data with
  | some s => .ok (some s)
  | none => dbScriptFetch

/-- `handleCharacterRequest` of the ai-character-generation function.
`imageCall` is the injected per-character image-generation capability
(the source's `mockImageGenerationApiCall`, partially applied, in
production); `script_data` the optional payload field; `dbScriptFetch`
the outcome of the `projects.script_data` fetch used when the payload has
none; the two `...Error` arguments inject the database update outcomes. -/
def handleCharacterRequest
    (imageCall : String → String → String → Except String String)
    (project_id : Option String)
    (script_data : Option Script)
    (custom_prompts : Option (List CharacterPromptDetail))
    (dbScriptFetch : Except String (Option Script))
    (charUpdateError progressUpdateError : Option String) :
    HandlerOutcome (List CharacterDetail) × List DbWrite :=
  if jsFalsyStr project_id then (.err 400 "project_id is required.", [])
  else
    match characterScriptFetch script_data dbScriptFetch with
    | .error m =>
        (.err (notFoundCatchStatus ("Failed to fetch script data: " ++ m))
          ("Failed to fetch script data: " ++ m), [])
    | .ok scriptOpt =>
      match charUpdateError with
      | some m =>
          (.err (notFoundCatchStatus ("Failed to store character data: " ++ m))
            ("Failed to store character data: " ++ m), [])
      | none =>
        match progressUpdateError with
        | some m =>
            (.err
              (notFoundCatchStatus ("Failed to update character generation progress: " ++ m))
              ("Failed to update character generation progress: " ++ m),
              [.projectCharacterData (project_id.getD "")
                (generateCharacters imageCall custom_prompts (resolveCharacterNames scriptOpt))])
        | none =>
            (.ok (generateCharacters imageCall custom_prompts (resolveCharacterNames scriptOpt)),
              [.projectCharacterData (project_id.getD "")
                (generateCharacters imageCall custom_prompts (resolveCharacterNames scriptOpt)),
               .progressFlag (project_id.getD "") .characters])

/-! ### ai-character-design handler -/

/-- `handleRequest` of the ai-character-design function. The script-stage
content and the produced design data are opaque to the orchestration logic,
so they are type parameters: `projectFound` injects the outcome of the
`projects` fetch (false = error or no row), `scriptStageContent` the
`story_stages` script row's content (none = error, missing row, or empty
content), `design` the character-design production (mock or DALL-E). A
failure of the final `projects.status` update is only logged by the source,
so `statusUpdateError` does not change the HTTP outcome. -/
def handleCharacterDesignRequest {σ γ : Type}
    (project_id : Option String)
    (projectFound : Bool)
    (scriptStageContent : Option σ)
    (design : σ → Except String γ)
    (stageInsertError progressUpdateError statusUpdateError : Option String) :
    HandlerOutcome γ × List DbWrite :=
  if jsFalsyStr project_id then (.err 400 "project_id is required.", [])
  else if !projectFound then (.err 500 "Project not found", [])
  else
    match scriptStageContent with
    | none => (.err 500 "Script data not found. Please complete script generation first.", [])
    | some content =>
      match design content with
      | .error m => (.err 500 (jsMessageOr m), [])
      | .ok characterData =>
        match stageInsertError with
        | some m => (.err 500 ("Failed to store character design data: " ++ m), [])
        | none =>
          match progressUpdateError with
          | some m => (.err 500 ("Failed to update story progress: " ++ m),
              [.storyStageInsert (project_id.getD "") "characters" "completed"])
          | none =>
            match statusUpdateError with
            | some _ =>
                (.ok characterData,
                  [.storyStageInsert (project_id.getD "") "characters" "completed",
                   .progressFlag (project_id.getD "") .characters])
            | none =>
                (.ok characterData,
                  [.storyStageInsert (project_id.getD "") "characters" "completed",
                   .progressFlag (project_id.getD "") .characters,
                   .projectStatus (project_id.getD "") "audio"])

/-! ## Theorems about the stage handlers -/

theorem isPrefixOf_append_self (l t : List Char) : l.isPrefixOf (l ++ t) = true := by
  induction l with
  | nil => simp [List.isPrefixOf]
  | cons c cs ih => simp [List.isPrefixOf, ih]

theorem hasInfix_of_middle (pre pat post : List Char) :
    hasInfix pat (pre ++ (pat ++ post)) = true := by
  induction pre with
  | nil =>
      cases pat with
      | nil =>
          cases post with
          | nil => rfl
          | cons c r => simp [hasInfix, List.isPrefixOf]
      | cons p ps =>
          show hasInfix (p :: ps) (p :: (ps ++ post)) = true
          have : (p :: ps).isPrefixOf (p :: (ps ++ post)) = true :=
            isPrefixOf_append_self (p :: ps) post
          simp [hasInfix, this]
  | cons c cs ih =>
      show hasInfix pat (c :: (cs ++ (pat ++ post))) = true
      simp [hasInfix, ih]

theorem strIncludes_middle (a b c : String) : strIncludes (a ++ (b ++ c)) b = true := by
  show hasInfix b.toList (a ++ (b ++ c)).toList = true
  have h : (a ++ (b ++ c)).toList = a.toList ++ (b.toList ++ c.toList) := by
    simp [String.toList, String.data_append]
  rw [h]
  exact hasInfix_of_middle a.toList b.toList c.toList

/-- The error placeholder URL literally contains the marker
`ERROR-<encoded character name>`. -/
theorem errorPlaceholderUrl_contains_marker (name msg : String) :
    strIncludes (errorPlaceholderUrl name msg) ("ERROR-" ++ encodeURIComponent name) = true := by
  have h : errorPlaceholderUrl name msg =
      "https://placehold.co/512x512.png?text=" ++
        (("ERROR-" ++ encodeURIComponent name) ++
          ("&reason=" ++ encodeURIComponent (strTake msg 30))) := by
    show "https://placehold.co/512x512.png?text=ERROR-" ++ encodeURIComponent name ++
      "&reason=" ++ encodeURIComponent (strTake msg 30) = _
    rw [show ("https://placehold.co/512x512.png?text=ERROR-" : String) =
      "https://placehold.co/512x512.png?text=" ++ "ERROR-" from by decide]
    simp only [String.append_assoc]
  rw [h]
  exact strIncludes_middle _ _ _

theorem characterEntry_name (imageCall : String → String → String → Except String String)
    (custom : Option (List CharacterPromptDetail)) (n : String) :
    (characterEntry imageCall custom n).name = n := by
  unfold characterEntry
  dsimp only
  split <;> rfl

theorem characterEntry_ok (imageCall : String → String → String → Except String String)
    (n url : String)
    (h : imageCall n (defaultCharacterDescription n) defaultStylePrompt = .ok url) :
    characterEntry imageCall none n =
      { name := n, description := defaultCharacterDescription n, image_url := url
        prompt_used := { description := defaultCharacterDescription n
                         style_prompt := defaultStylePrompt } } := by
  simp [characterEntry, findCustomPrompt, jsOrElse, h]

theorem characterEntry_error (imageCall : String → String → String → Except String String)
    (n msg : String)
    (h : imageCall n (defaultCharacterDescription n) defaultStylePrompt = .error msg) :
    characterEntry imageCall none n =
      { name := n, description := defaultCharacterDescription n
        image_url := errorPlaceholderUrl n msg
        prompt_used := { description := defaultCharacterDescription n
                         style_prompt := defaultStylePrompt } } := by
  simp [characterEntry, findCustomPrompt, jsOrElse, h]

theorem handleCharacterRequest_payload_success
    (imageCall : String → String → String → Except String String)
    (pid : String) (hpid : pid ≠ "") (sc : Script)
    (custom : Option (List CharacterPromptDetail)) (dbFetch : Except String (Option Script)) :
    handleCharacterRequest imageCall (some pid) (some sc) custom dbFetch none none =
      (.ok (generateCharacters imageCall custom (resolveCharacterNames (some sc))),
       [.projectCharacterData pid
          (generateCharacters imageCall custom (resolveCharacterNames (some sc))),
        .progressFlag pid .characters]) := by
  simp [handleCharacterRequest, characterScriptFetch, jsFalsyStr, hpid]

/-- C5: for the character stage invoked with a script whose resolved
character list is `names`, where exactly the `k`-th character's
image-generation call throws and every other call succeeds, the handler
returns overall success with exactly `names.length` entries in input order;
only entry `k` carries the error-placeholder URL (containing the "ERROR"
marker together with that character's name) and every other entry carries
the URL its call returned. -/
theorem character_stage_partial_failure
    (imageCall : String → String → String → Except String String)
    (pid : String) (hpid : pid ≠ "") (sc : Script)
    (dbFetch : Except String (Option Script))
    (names : List String) (hnames : resolveCharacterNames (some sc) = names)
    (k : Nat) (hk : k < names.length) (failMsg : String) (urls : Nat → String)
    (hfail : imageCall names[k] (defaultCharacterDescription names[k]) defaultStylePrompt =
      .error failMsg)
    (hok : ∀ i, (hi : i < names.length) → i ≠ k →
      imageCall names[i] (defaultCharacterDescription names[i]) defaultStylePrompt =
        .ok (urls i)) :
    (handleCharacterRequest imageCall (some pid) (some sc) none dbFetch none none).1 =
      .ok (generateCharacters imageCall none names) ∧
    (handleCharacterRequest imageCall (some pid) (some sc) none dbFetch none none).2 =
      [.projectCharacterData pid (generateCharacters imageCall none names),
       .progressFlag pid .characters] ∧
    (generateCharacters imageCall none names).length = names.length ∧
    (∀ i : Nat, ((generateCharacters imageCall none names)[i]?).map CharacterDetail.name =
      names[i]?) ∧
    ((generateCharacters imageCall none names)[k]?).map CharacterDetail.image_url =
      some (errorPlaceholderUrl names[k] failMsg) ∧
    strIncludes (errorPlaceholderUrl names[k] failMsg)
      ("ERROR-" ++ encodeURIComponent names[k]) = true ∧
    (∀ i, (hi : i < names.length) → i ≠ k →
      ((generateCharacters imageCall none names)[i]?).map CharacterDetail.image_url =
        some (urls i)) := by
  have hhandler := handleCharacterRequest_payload_success imageCall pid hpid sc none dbFetch
  rw [hnames] at hhandler
  refine ⟨by rw [hhandler], by rw [hhandler], ?_, ?_, ?_, ?_, ?_⟩
  · simp [generateCharacters]
  · intro i
    cases hni : names[i]? with
    | none => simp [generateCharacters, List.getElem?_map, hni]
    | some n => simp [generateCharacters, List.getElem?_map, hni, characterEntry_name]
  · have hnk : names[k]? = some names[k] := List.getElem?_eq_getElem hk
    simp [generateCharacters, List.getElem?_map, hnk, characterEntry_error _ _ _ hfail]
  · exact errorPlaceholderUrl_contains_marker names[k] failMsg
  · intro i hi hne
    have hni : names[i]? = some names[i] := List.getElem?_eq_getElem hi
    simp [generateCharacters, List.getElem?_map, hni, characterEntry_ok _ _ _ (hok i hi hne)]

/-- The sample script of the character-generation tests: dialogue speakers
Alice, Bob and Charles. -/
def sampleScriptWithChars : Script :=
  { title := "Test Script"
    logline := "A script with characters."
    scenes := [
      { scene_number := 1, setting := "Room", action := "Talking"
        dialogue := [{ character := "Alice", line := "Hello" },
                     { character := "Bob", line := "Hi" }] },
      { scene_number := 2, setting := "Garden", action := "Walking"
        dialogue := [{ character := "Alice", line := "Nice day" },
                     { character := "Charles", line := "Indeed" }] }] }

/-- Image-generation capability that throws for Alice only. -/
def failAliceImageCall : String → String → String → Except String String :=
  fun name _ _ =>
    if name = "Alice" then .error "Simulated image generation API error for Alice."
    else .ok ("https://example.com/img/" ++ name ++ ".png")

/-- Expected URLs per index for `failAliceImageCall` on Alice/Bob/Charles. -/
def c5Urls : Nat → String :=
  fun i => "https://example.com/img/" ++ (["Alice", "Bob", "Charles"].getD i "") ++ ".png"

theorem character_stage_partial_failure_witness :
    (handleCharacterRequest failAliceImageCall (some "proj_img_api_fail")
      (some sampleScriptWithChars) none (.ok none) none none).1 =
      .ok (generateCharacters failAliceImageCall none ["Alice", "Bob", "Charles"]) ∧
    (generateCharacters failAliceImageCall none ["Alice", "Bob", "Charles"]).length = 3 ∧
    ((generateCharacters failAliceImageCall none ["Alice", "Bob", "Charles"])[0]?).map
      CharacterDetail.image_url =
      some (errorPlaceholderUrl "Alice" "Simulated image generation API error for Alice.") ∧
    strIncludes (errorPlaceholderUrl "Alice" "Simulated image generation API error for Alice.")
      ("ERROR-" ++ encodeURIComponent "Alice") = true ∧
    ((generateCharacters failAliceImageCall none ["Alice", "Bob", "Charles"])[1]?).map
      CharacterDetail.image_url = some (c5Urls 1) := by
  have h := character_stage_partial_failure failAliceImageCall "proj_img_api_fail" (by decide)
    sampleScriptWithChars (.ok none) ["Alice", "Bob", "Charles"] (by decide)
    0 (by decide) "Simulated image generation API error for Alice." c5Urls rfl
    (by
      intro i hi hne
      have hi3 : i < 3 := by simpa using hi
      interval_cases i
      · exact absurd rfl hne
      · rfl
      · rfl)
  exact ⟨h.1, (by decide : ([("Alice" : String), "Bob", "Charles"]).length = 3) ▸ h.2.2.1,
    h.2.2.2.2.1, h.2.2.2.2.2.1, h.2.2.2.2.2.2 1 (by decide) (by decide)⟩

/-- C10: even when every per-character image-generation call throws, the
character-generation handler still succeeds: it persists a character list
consisting entirely of error-placeholder entries, sets the `characters`
progress flag to true, and returns HTTP 200 — so a true progress flag does
not imply any item was actually generated. -/
theorem character_stage_all_failures
    (imageCall : String → String → String → Except String String)
    (pid : String) (hpid : pid ≠ "") (sc : Script)
    (dbFetch : Except String (Option Script)) (failMsg : String → String)
    (hfail : ∀ name ∈ resolveCharacterNames (some sc),
      imageCall name (defaultCharacterDescription name) defaultStylePrompt =
        .error (failMsg name))
    (s : PipelineState) (hpgid : s.progress.project_id = pid) :
    (handleCharacterRequest imageCall (some pid) (some sc) none dbFetch none none).1 =
      .ok ((resolveCharacterNames (some sc)).map (fun n =>
        { name := n, description := defaultCharacterDescription n
          image_url := errorPlaceholderUrl n (failMsg n)
          prompt_used := { description := defaultCharacterDescription n
                           style_prompt := defaultStylePrompt } })) ∧
    (∀ n ∈ resolveCharacterNames (some sc),
      strIncludes (errorPlaceholderUrl n (failMsg n))
        ("ERROR-" ++ encodeURIComponent n) = true) ∧
    (applyWrites s
      (handleCharacterRequest imageCall (some pid) (some sc) none dbFetch
        none none).2).progress.characters = true := by
  have hhandler := handleCharacterRequest_payload_success imageCall pid hpid sc none dbFetch
  have hmap : generateCharacters imageCall none (resolveCharacterNames (some sc)) =
      (resolveCharacterNames (some sc)).map (fun n =>
        { name := n, description := defaultCharacterDescription n
          image_url := errorPlaceholderUrl n (failMsg n)
          prompt_used := { description := defaultCharacterDescription n
                           style_prompt := defaultStylePrompt } }) := by
    unfold generateCharacters
    refine List.map_congr_left ?_
    intro n hn
    exact characterEntry_error imageCall n (failMsg n) (hfail n hn)
  refine ⟨by rw [hhandler, hmap], ?_, ?_⟩
  · intro n _
    exact errorPlaceholderUrl_contains_marker n (failMsg n)
  · rw [hhandler]
    by_cases hid : s.project.id = pid <;>
      simp [applyWrites, applyWrite, hid, hpgid, setFlag]

/-- Image-generation capability that throws for every character. -/
def alwaysFailImageCall : String → String → String → Except String String :=
  fun name _ _ => .error ("Simulated image generation API error for " ++ name ++ ".")

/-- The single-project state used to exercise the handlers. -/
def sampleState : PipelineState :=
  { project := { id := "p1", topic := "test_success", status := "research" }
    progress := { project_id := "p1" } }

theorem character_stage_all_failures_witness :
    (handleCharacterRequest alwaysFailImageCall (some "p1") (some sampleScriptWithChars)
      none (.ok none) none none).1 =
      .ok ((resolveCharacterNames (some sampleScriptWithChars)).map (fun n =>
        { name := n, description := defaultCharacterDescription n
          image_url := errorPlaceholderUrl n
            ("Simulated image generation API error for " ++ n ++ ".")
          prompt_used := { description := defaultCharacterDescription n
                           style_prompt := defaultStylePrompt } })) ∧
    (applyWrites sampleState
      (handleCharacterRequest alwaysFailImageCall (some "p1") (some sampleScriptWithChars)
        none (.ok none) none none).2).progress.characters = true := by
  have h := character_stage_all_failures alwaysFailImageCall "p1" (by decide)
    sampleScriptWithChars (.ok none)
    (fun n => "Simulated image generation API error for " ++ n ++ ".")
    (fun n _ => rfl) sampleState rfl
  exact ⟨h.1, h.2.2⟩

/-- The handler's mock research capability at a fixed timestamp. -/
def fixedMockResearch : String → Except String ResearchData :=
  fun t => mockResearchApiCall t "2025-01-01T00:00:00.000Z"

/-- The research data `fixedMockResearch` yields for `test_success`. -/
def mockSuccessResearchData : ResearchData :=
  { summary := "This is a mock summary for the topic: test_success."
    key_points := ["Point 1", "Point 2", "Point 3"]
    sources := ["mock_source1.com", "mock_source2.com"]
    timestamp := "2025-01-01T00:00:00.000Z" }

/-- C2 counterexample: a successful research-stage invocation sets exactly
the `research` progress flag, but the project's current-stage pointer is
left at "research" instead of being advanced to "script" as the claim (and
the spec's fixed order) requires — the ai-research handler performs no
`projects.status` update at all. -/
theorem research_pointer_counterexample :
    (handleResearchRequest (some "test_success") (some "p1") fixedMockResearch none none).1 =
      .ok mockSuccessResearchData ∧
    (applyWrites sampleState
      (handleResearchRequest (some "test_success") (some "p1") fixedMockResearch
        none none).2).progress =
      { project_id := "p1", research := true } ∧
    (applyWrites sampleState
      (handleResearchRequest (some "test_success") (some "p1") fixedMockResearch
        none none).2).project.status = "research" ∧
    specNextStage .research = some "script" ∧
    ("research" : String) ≠ "script" :=
  ⟨by decide, by decide, by decide, rfl, by decide⟩

/-- C2 (amended): for every completed stage-runner invocation exactly one
progress flag is set true, but the current-stage pointer is advanced only
by some handlers: the ai-research handler leaves `projects.status`
untouched, while the ai-character-design handler sets it to "audio" (the
spec-order successor of characters). -/
theorem stage_completion_effects {σ γ : Type}
    (pid topic : String) (hpid : pid ≠ "") (htopic : topic ≠ "")
    (research : String → Except String ResearchData) (rd : ResearchData)
    (hres : research topic = .ok rd)
    (content : σ) (design : σ → Except String γ) (cd : γ) (hdes : design content = .ok cd)
    (s : PipelineState) (hsid : s.project.id = pid) (hpgid : s.progress.project_id = pid) :
    (handleResearchRequest (some topic) (some pid) research none none).1 = .ok rd ∧
    (applyWrites s
      (handleResearchRequest (some topic) (some pid) research none none).2).progress =
      setFlag s.progress .research ∧
    (applyWrites s
      (handleResearchRequest (some topic) (some pid) research none none).2).project.status =
      s.project.status ∧
    (handleCharacterDesignRequest (some pid) true (some content) design none none none).1 =
      .ok cd ∧
    (applyWrites s
      (handleCharacterDesignRequest (some pid) true (some content) design
        none none none).2).progress = setFlag s.progress .characters ∧
    (applyWrites s
      (handleCharacterDesignRequest (some pid) true (some content) design
        none none none).2).project.status = "audio" ∧
    specNextStage .characters = some "audio" := by
  have hr : handleResearchRequest (some topic) (some pid) research none none =
      (.ok rd, [.projectResearchData pid rd, .progressFlag pid .research]) := by
    simp [handleResearchRequest, jsFalsyStr, hpid, htopic, hres]
  have hd : handleCharacterDesignRequest (some pid) true (some content) design none none none =
      (.ok cd, [.storyStageInsert pid "characters" "completed",
        .progressFlag pid .characters, .projectStatus pid "audio"]) := by
    simp [handleCharacterDesignRequest, jsFalsyStr, hpid, hdes]
  refine ⟨by rw [hr], ?_, ?_, by rw [hd], ?_, ?_, rfl⟩
  · rw [hr]
    simp [applyWrites, applyWrite, hsid, hpgid]
  · rw [hr]
    simp [applyWrites, applyWrite, hsid, hpgid]
  · rw [hd]
    simp [applyWrites, applyWrite, hsid, hpgid]
  · rw [hd]
    simp [applyWrites, applyWrite, hsid, hpgid]

/-- A trivial character-design capability for the witness. -/
def constDesign : Unit → Except String Nat := fun _ => .ok 42

theorem stage_completion_effects_witness :
    (handleResearchRequest (some "test_success") (some "p1") fixedMockResearch none none).1 =
      .ok mockSuccessResearchData ∧
    (applyWrites sampleState
      (handleResearchRequest (some "test_success") (some "p1") fixedMockResearch
        none none).2).project.status = sampleState.project.status ∧
    (handleCharacterDesignRequest (some "p1") true (some ()) constDesign none none none).1 =
      .ok 42 ∧
    (applyWrites sampleState
      (handleCharacterDesignRequest (some "p1") true (some ()) constDesign
        none none none).2).project.status = "audio" := by
  have h := stage_completion_effects "p1" "test_success" (by decide) (by decide)
    fixedMockResearch mockSuccessResearchData rfl () constDesign 42 rfl
    sampleState rfl rfl
  exact ⟨h.1, h.2.2.1, h.2.2.2.1, h.2.2.2.2.2.1⟩

/-- C6 counterexample: when no research data is supplied and none is
persisted, the scriptwriting handler returns a plain HTTP 404 response
whose error message is "Research data not found for project ... Cannot
generate script." — the message does not mention `MISSING_DEPENDENCIES`
and no classified ServiceError is raised; no database write happens. -/
theorem script_missing_research_counterexample :
    (handleScriptRequest (some "proj_not_found_rd") none (.ok none) none none).1 =
      .err 404
        "Research data not found for project proj_not_found_rd. Cannot generate script." ∧
    strIncludes
      "Research data not found for project proj_not_found_rd. Cannot generate script."
      "MISSING_DEPENDENCIES" = false ∧
    (handleScriptRequest (some "proj_not_found_rd") none (.ok none) none none).2 = [] :=
  ⟨by decide, by decide, by decide⟩

/-- C6 (amended): the script stage invoked with no usable research data in
the request and none persisted fails with HTTP 404 and the message
"Research data not found for project <id>. Cannot generate script."
(the `MISSING_DEPENDENCIES` error code exists in the error-handling module
but is not used here); no RecoveryQueueEntry is created and the persisted
state — script data and progress flags included — is left unchanged. -/
theorem script_missing_research_amended (pid : String) (hpid : pid ≠ "")
    (s : PipelineState) :
    (handleScriptRequest (some pid) none (.ok none) none none).1 =
      .err 404 ("Research data not found for project " ++ pid ++
        ". Cannot generate script.") ∧
    (handleScriptRequest (some pid) none (.ok none) none none).2 = [] ∧
    applyWrites s (handleScriptRequest (some pid) none (.ok none) none none).2 = s ∧
    ((handleScriptRequest (some pid) none (.ok none) none none).2.countP
      DbWrite.isRetryQueueInsert) = 0 := by
  have h : handleScriptRequest (some pid) none (.ok none) none none =
      (.err 404 ("Research data not found for project " ++ pid ++
        ". Cannot generate script."), []) := by
    simp [handleScriptRequest, scriptResolveResearch, scriptFetchResolve, jsFalsyStr, hpid]
  exact ⟨by rw [h], by rw [h], by rw [h]; rfl, by rw [h]; rfl⟩

theorem script_missing_research_amended_witness :
    (handleScriptRequest (some "proj_not_found_rd") none (.ok none) none none).1 =
      .err 404
        "Research data not found for project proj_not_found_rd. Cannot generate script." ∧
    applyWrites sampleState
      (handleScriptRequest (some "proj_not_found_rd") none (.ok none) none none).2 =
      sampleState := by
  have h := script_missing_research_amended "proj_not_found_rd" (by decide) sampleState
  exact ⟨h.1, h.2.2.1⟩

/-- Research data whose summary triggers the simulated LLM failure. -/
def failingScriptResearch : ResearchData :=
  { summary := "test_error_script topic", key_points := [], sources := [], timestamp := "t0" }

/-- C8 counterexample: a script-stage invocation fails (HTTP 500) with an
error the classifier would deem retryable (`UNKNOWN_ERROR`), yet the
handler performs no database write at all — in particular no `retry_queue`
insert is created. -/
theorem recovery_queue_counterexample :
    (handleScriptRequest (some "p1") (some failingScriptResearch) (.ok none) none none).1 =
      .err 500 "Simulated LLM error during script generation." ∧
    (mapAPIError { message := some "Simulated LLM error during script generation." }
      "Script Generation").retryable = true ∧
    (handleScriptRequest (some "p1") (some failingScriptResearch) (.ok none) none none).2 =
      [] :=
  ⟨by decide, by decide, by decide⟩

/-- C8 (amended): `RecoveryStrategies.queueForRetry`, when invoked at time
`now`, inserts a `retry_queue` row with `retry_count = 0` and
`next_retry_at` five minutes (300000 ms) later, and the stored row's status
defaults to "pending" per the table definition; however, no stage handler
ever performs a `retry_queue` insert, so a failed stage invocation does not
create a RecoveryQueueEntry. -/
theorem recovery_queue_amended :
    (∀ p st now, (queueForRetry p st now).retry_count = 0 ∧
      (queueForRetry p st now).next_retry_at = now + 5 * 60 * 1000 ∧
      (applyRetryQueueInsert (queueForRetry p st now)).status = "pending") ∧
    (∀ topic pid research pe ge,
      ((handleResearchRequest topic pid research pe ge).2.countP
        DbWrite.isRetryQueueInsert) = 0) ∧
    (∀ pid rdata fetch se pe,
      ((handleScriptRequest pid rdata fetch se pe).2.countP
        DbWrite.isRetryQueueInsert) = 0) ∧
    (∀ ic pid sd cp fetch ce pe,
      ((handleCharacterRequest ic pid sd cp fetch ce pe).2.countP
        DbWrite.isRetryQueueInsert) = 0) ∧
    (∀ (σ γ : Type) (pid : Option String) (pf : Bool) (content : Option σ)
      (design : σ → Except String γ) (se pe ste : Option String),
      ((handleCharacterDesignRequest pid pf content design se pe ste).2.countP
        DbWrite.isRetryQueueInsert) = 0) := by
  refine ⟨fun p st now => ⟨rfl, rfl, rfl⟩, ?_, ?_, ?_, ?_⟩
  · intro topic pid research pe ge
    unfold handleResearchRequest
    repeat' split
    all_goals rfl
  · intro pid rdata fetch se pe
    unfold handleScriptRequest
    repeat' split
    all_goals rfl
  · intro ic pid sd cp fetch ce pe
    unfold handleCharacterRequest
    repeat' split
    all_goals rfl
  · intro σ γ pid pf content design se pe ste
    unfold handleCharacterDesignRequest
    repeat' split
    all_goals rfl
